import Mathlib

/-!
# Verification of the OnlineMQ Python client (`onlinemq.py`)

Shallow embedding of the XML marshalling layer and the protocol adapter of
the OnlineMQ client library, together with theorems settling the frozen
claims about it.

Modelling conventions:
* Python values flowing through the codec are either ints or strings
  (`PyVal`); Python `None` is `Option.none`.
* Raised Python exceptions are modelled by the `PyExc` type; a function
  that can raise returns `Except PyExc _`; a bare `try/except` is a `match`
  on that result.
* `minidom` documents are the `XmlDoc`/`XmlNode` tree.  `minidom.parseString`
  is an external library call, so a byte-string input is represented by its
  parse outcome `ParseResult := Except PyExc XmlDoc`: either the parsed
  document or the raised parse exception.  `minidom` escapes all text data
  on output and unescapes it on parsing, so serialising a document built by
  the library and re-parsing it yields the same document; composing
  serialisation with deserialisation is therefore represented by feeding
  `.ok` of the built document to the deserialiser.
-/

/-- A Python value handled by the codec: an int or a string. -/
inductive PyVal where
  | int (n : Int)
  | str (s : String)
deriving Repr, DecidableEq

/-- Python `str()` of a `PyVal`. -/
def PyVal.pyStr : PyVal → String
  | .int n => toString n
  | .str s => s

/-- Python truthiness of a `PyVal`: nonzero int / nonempty string. -/
def PyVal.truthy : PyVal → Bool
  | .int n => n != 0
  | .str s => s.length != 0

/-- Python truthiness of an optional value (`None` is falsy). -/
def pyTruthy : Option PyVal → Bool
  | none => false
  | some v => v.truthy

/-- Python `==` between an optional value and an int literal.  In Python 2 an
int never equals a string, and `None` never equals an int. -/
def pyEqInt : Option PyVal → Int → Bool
  | some (.int n), m => n == m
  | _, _ => false

/-- A raised Python exception, as far as the library distinguishes them. -/
inductive PyExc where
  /-- Raw `ValueError` (e.g. `int()` on a non-numeric string). -/
  | valueError (msg : String)
  /-- Raw `NameError` (unbound name). -/
  | nameError (msg : String)
  /-- Raw `AttributeError` (attribute access on an object lacking it). -/
  | attributeError (msg : String)
  /-- XML parse error raised by `minidom.parseString`. -/
  | expatError (msg : String)
  /-- `OmqException`: the library's local error type. -/
  | omqException (value : String)
  /-- `OmqServerException`: the library's server-error type. -/
  | omqServerException (error : String)
deriving Repr, DecidableEq

/-- Whether an exception belongs to the library's own error taxonomy
(`OmqException` or its subclass `OmqServerException`), as opposed to a raw
language-level exception. -/
def PyExc.isLibraryError : PyExc → Bool
  | .omqException _ => true
  | .omqServerException _ => true
  | _ => false

/-- Python `repr()` of an exception, as used by `OmqQueue.from_xml` to build
the `OmqException` it raises. -/
def PyExc.pyRepr : PyExc → String
  | .valueError m => "ValueError(" ++ m ++ ")"
  | .nameError m => "NameError(" ++ m ++ ")"
  | .attributeError m => "AttributeError(" ++ m ++ ")"
  | .expatError m => "ExpatError(" ++ m ++ ")"
  | .omqException m => "OmqException(" ++ m ++ ")"
  | .omqServerException m => "OmqServerException(" ++ m ++ ")"

/-- Python `str.replace` over a character list, left to right and
non-overlapping.  `fuel` bounds the recursion; every step consumes at least
one character of the subject when the pattern is nonempty (every use here),
so a fuel of the subject length makes the bound vacuous. -/
def replaceChars (pat rep : List Char) : Nat → List Char → List Char
  | 0, s => s
  | _, [] => []
  | fuel + 1, c :: rest =>
      if pat.isPrefixOf (c :: rest) then
        rep ++ replaceChars pat rep fuel (List.drop pat.length (c :: rest))
      else
        c :: replaceChars pat rep fuel rest

/-- Python `s.replace(pat, rep)`. -/
def pyReplace (s pat rep : String) : String :=
  ⟨replaceChars pat.toList rep.toList s.toList.length s.toList⟩

/-- Python `str.lower` (ASCII, as in Python 2 on byte strings). -/
def pyLower (s : String) : String :=
  ⟨s.toList.map Char.toLower⟩

/-- `xml.sax.saxutils.escape`: replace `&` first, then `<` and `>`. -/
def sax_escape (s : String) : String :=
  pyReplace (pyReplace (pyReplace s "&" "&amp;") "<" "&lt;") ">" "&gt;"

/-- `xml.sax.saxutils.unescape`: replace `&lt;` and `&gt;`, then `&amp;`. -/
def sax_unescape (s : String) : String :=
  pyReplace (pyReplace (pyReplace s "&lt;" "<") "&gt;" ">") "&amp;" "&"

/-- A node of a `minidom` tree: an element (tag name, attributes, children)
or a text node. -/
inductive XmlNode where
  | element (name : String) (attrs : List (String × String)) (children : List XmlNode)
  | text (data : String)
deriving Repr

/-- `node.firstChild` (`None` on a childless element or a text node). -/
def XmlNode.firstChild : XmlNode → Option XmlNode
  | .element _ _ cs => cs.head?
  | .text _ => none

/-- Attribute lookup: `some` value iff `hasAttribute`; `getAttribute` then
returns that value. -/
def XmlNode.getAttributeOpt : XmlNode → String → Option String
  | .element _ attrs _, name => attrs.lookup name
  | .text _, _ => none

mutual
/-- All elements with the given tag name in the subtree rooted at a node, in
document (pre-)order, the node itself included when it matches. -/
def elemsByTagName (tagName : String) : XmlNode → List XmlNode
  | .text _ => []
  | .element n a cs =>
      (if n = tagName then [XmlNode.element n a cs] else []) ++ elemsByTagNameList tagName cs

/-- `elemsByTagName` mapped over a list of siblings. -/
def elemsByTagNameList (tagName : String) : List XmlNode → List XmlNode
  | [] => []
  | c :: cs => elemsByTagName tagName c ++ elemsByTagNameList tagName cs
end

/-- A `minidom` document: its single root (document) element. -/
structure XmlDoc where
  root : XmlNode
deriving Repr

/-- `doc.getElementsByTagName(name)`: all matching elements in document
order, the root element included. -/
def XmlDoc.getElementsByTagName (d : XmlDoc) (tagName : String) : List XmlNode :=
  elemsByTagName tagName d.root

/-- Outcome of `minidom.parseString` on a byte string: the parsed document,
or the exception the parse raised.  Inputs to the deserialisers are
represented by this outcome, since `minidom` is an external library. -/
def ParseResult := Except PyExc XmlDoc

/-- Python `int(s)` on a string: optional surrounding whitespace, an optional
sign, then one or more decimal digits; `none` when that fails (the real call
raises `ValueError`, which the callers modelled here turn into
`PyExc.valueError`). -/
def pyInt? (s : String) : Option Int :=
  let t := ((s.toList.dropWhile Char.isWhitespace).reverse.dropWhile
      Char.isWhitespace).reverse
  match t with
  | [] => none
  | '-' :: ds =>
      if !ds.isEmpty && ds.all Char.isDigit then
        some (-(ds.foldl (fun acc c => acc * 10 + (c.toNat - 48)) (0 : Nat) : Int))
      else none
  | '+' :: ds =>
      if !ds.isEmpty && ds.all Char.isDigit then
        some ((ds.foldl (fun acc c => acc * 10 + (c.toNat - 48)) (0 : Nat) : Int))
      else none
  | ds =>
      if ds.all Char.isDigit then
        some ((ds.foldl (fun acc c => acc * 10 + (c.toNat - 48)) (0 : Nat) : Int))
      else none

/-- `XmlHelper.str_as_bool`: `'true'` (case-insensitive) maps to 1, anything
else to 0 (the Python function returns the ints 1/0). -/
def XmlHelper.str_as_bool (str_val : String) : Int :=
  if pyLower str_val = "true" then 1 else 0

/-- `XmlHelper.bool_as_str`. -/
def XmlHelper.bool_as_str (bool_val : Bool) : String :=
  if bool_val then "true" else "false"

/-- `XmlHelper.add_tag_with_value(root_tag, tag_name, tag_value, type, escape_xml)`:
no-op on a `None` value; otherwise appends to the parent's child list a new
element named `tag_name`, with a `type` attribute when one is given, whose
single text child is `str(tag_value)`, `saxutils`-escaped unless
`escape_xml` is off.  The Python function mutates the parent; here it maps
the parent's child list to the extended one. -/
def XmlHelper.add_tag_with_value (children : List XmlNode) (tag_name : String)
    (tag_value : Option PyVal) (type_attr : Option String := none)
    (escape_xml : Bool := true) : List XmlNode :=
  match tag_value with
  | none => children
  | some v =>
      let attrs := match type_attr with
        | some t => [("type", t)]
        | none => []
      let text_content := v.pyStr
      let text_content := if escape_xml then sax_escape text_content else text_content
      children ++ [XmlNode.element tag_name attrs [XmlNode.text text_content]]

/-- `XmlHelper.get_tag_content(doc, tag_name, unescape_xml)`: collects the
elements named `tag_name`, pops the last one, and reads its first child as a
text node — `None` when there is no matching element, no first child, or the
text has zero length; otherwise the value typed by the element's `type`
attribute (`integer` parses the text as an int, raising `ValueError` on
failure; `boolean` applies `str_as_bool`; anything else is a string,
unescaped unless `unescape_xml` is off).  `text_node.data` on a non-text
first child raises `AttributeError`. -/
def XmlHelper.get_tag_content (doc : XmlDoc) (tag_name : String)
    (unescape_xml : Bool := true) : Except PyExc (Option PyVal) :=
  let tags := doc.getElementsByTagName tag_name
  match tags.getLast? with
  | none => .ok none
  | some tag =>
      match tag.firstChild with
      | none => .ok none
      | some (.element _ _ _) =>
          .error (.attributeError "Element instance has no attribute data")
      | some (.text data) =>
          if data.length > 0 then
            match tag.getAttributeOpt "type" with
            | some "integer" =>
                match pyInt? data with
                | some n => .ok (some (.int n))
                | none =>
                    .error (.valueError
                      ("invalid literal for int() with base 10: " ++ data))
            | some "boolean" => .ok (some (.int (XmlHelper.str_as_bool data)))
            | some _ =>
                .ok (some (.str (if unescape_xml then sax_unescape data else data)))
            | none =>
                .ok (some (.str (if unescape_xml then sax_unescape data else data)))
          else .ok none

/-- `OmqMessage`: encoding enum values. -/
def OmqMessage.ENC_UTF8 : Int := 1
def OmqMessage.ENC_CDATA : Int := 2
def OmqMessage.ENC_XML_ESCAPED : Int := 3
def OmqMessage.ENC_BASE64 : Int := 4

/-- Representation of an OnlineMQ message.  `encoding` is never `None`
after `__init__` (it defaults to UTF-8); every other field may be absent.
Fields parsed from XML may be strings even where ints are expected, exactly
as in the Python object. -/
structure OmqMessage where
  body : Option PyVal
  encoding : PyVal
  priority : Option PyVal
  body_type : Option PyVal
  description : Option PyVal
  sender : Option PyVal
  queue_id : Option PyVal
  id : Option PyVal
deriving Repr, DecidableEq

/-- `OmqMessage.__init__(body, encoding, body_type, priority, description,
sender, queue_id, mid)`: a falsy `encoding` argument (absent, zero, or an
empty string) is replaced by the UTF-8 default. -/
def OmqMessage.init (body encoding body_type priority description sender
    queue_id mid : Option PyVal) : OmqMessage :=
  { body := body
    encoding :=
      match encoding with
      | some v => if v.truthy then v else .int OmqMessage.ENC_UTF8
      | none => .int OmqMessage.ENC_UTF8
    priority := priority
    body_type := body_type
    description := description
    sender := sender
    queue_id := queue_id
    id := mid }

/-- `OmqMessage.get_message_as_xml`, at the document level: root element
`message`; children appended in order `body_encoding_id`, `priority`,
`body_type_id`, `description`, `body`; each written by `add_tag_with_value`
with no `type` attribute; the body escaped exactly when the encoding equals
`ENC_UTF8` or `ENC_XML_ESCAPED` (a Python `==`, so a string-valued encoding
never matches).  The returned bytes are this document rendered with an
UTF-8 XML declaration. -/
def OmqMessage.get_message_as_xml_doc (m : OmqMessage) : XmlDoc :=
  let cs := XmlHelper.add_tag_with_value [] "body_encoding_id" (some m.encoding)
  let cs := XmlHelper.add_tag_with_value cs "priority" m.priority
  let cs := XmlHelper.add_tag_with_value cs "body_type_id" m.body_type
  let cs := XmlHelper.add_tag_with_value cs "description" m.description
  let cs :=
    if pyEqInt (some m.encoding) OmqMessage.ENC_UTF8
        || pyEqInt (some m.encoding) OmqMessage.ENC_XML_ESCAPED then
      XmlHelper.add_tag_with_value cs "body" m.body none true
    else
      XmlHelper.add_tag_with_value cs "body" m.body none false
  ⟨XmlNode.element "message" [] cs⟩

/-- Body of `OmqMessage.from_xml` after a successful parse, before the
enclosing `try/except`.  The branch condition is
`encoding == OmqMessage.ENC_UTF8 or self.encoding == OmqMessage.ENC_XML_ESCAPED`:
when the first comparison is falsy, Python evaluates `self.encoding`, and
`self` is unbound inside this class-level function, so a `NameError` is
raised. -/
def OmqMessage.from_xml_inner (doc : XmlDoc) : Except PyExc OmqMessage := do
  let encoding ← XmlHelper.get_tag_content doc "body_encoding_id"
  let priority ← XmlHelper.get_tag_content doc "priority"
  let mtype ← XmlHelper.get_tag_content doc "body_type_id"
  let desc ← XmlHelper.get_tag_content doc "description"
  let sender ← XmlHelper.get_tag_content doc "sender"
  let qid ← XmlHelper.get_tag_content doc "queue_id"
  let mid ← XmlHelper.get_tag_content doc "id"
  if pyEqInt encoding OmqMessage.ENC_UTF8 then do
    let body ← XmlHelper.get_tag_content doc "body" true
    return OmqMessage.init body encoding mtype priority desc sender qid mid
  else
    throw (.nameError "global name self is not defined")

/-- `OmqMessage.from_xml(xml_str)`: the whole body runs under a bare
`try/except` that swallows every exception — a parse failure as much as any
failure inside — into the `None` result. -/
def OmqMessage.from_xml (r : ParseResult) : Option OmqMessage :=
  match (Except.bind r OmqMessage.from_xml_inner : Except PyExc OmqMessage) with
  | .ok m => some m
  | .error _ => none

/-- Representation of an OnlineMQ queue; every field may hold whatever
`get_tag_content` produced (int, string, or absent), as in the Python
object. -/
structure OmqQueue where
  id : Option PyVal
  name : Option PyVal
  queue_manager_id : Option PyVal
  max_depth : Option PyVal
  max_msg_length : Option PyVal
  send_enabled : Option PyVal
  receive_enabled : Option PyVal
  description : Option PyVal
  depth : Option PyVal
  visibility_timeout : Option PyVal
deriving Repr, DecidableEq

/-- Body of `OmqQueue.from_xml` after a successful parse, before the
enclosing `try/except`: reads the ten fields and constructs the queue
(`OmqQueue.__init__` stores its arguments unchanged). -/
def OmqQueue.from_xml_inner (doc : XmlDoc) : Except PyExc OmqQueue := do
  let desc ← XmlHelper.get_tag_content doc "description"
  let qid ← XmlHelper.get_tag_content doc "id"
  let mdepth ← XmlHelper.get_tag_content doc "max_depth"
  let mlength ← XmlHelper.get_tag_content doc "max_message_length"
  let name ← XmlHelper.get_tag_content doc "name"
  let qmgrid ← XmlHelper.get_tag_content doc "queue_manager_id"
  let recenabled ← XmlHelper.get_tag_content doc "receive_enabled"
  let send_enabled ← XmlHelper.get_tag_content doc "send_enabled"
  let visibility ← XmlHelper.get_tag_content doc "visibility_timeout"
  let depth ← XmlHelper.get_tag_content doc "depth"
  return { id := qid, name := name, queue_manager_id := qmgrid,
           max_depth := mdepth, max_msg_length := mlength,
           send_enabled := send_enabled, receive_enabled := recenabled,
           description := desc, depth := depth,
           visibility_timeout := visibility }

/-- `OmqQueue.from_xml(xml_str)`: `except Exception, e: raise
OmqException(repr(e))` — any exception during parsing or field reading is
re-raised as the library's `OmqException` carrying the exception's
`repr`. -/
def OmqQueue.from_xml (r : ParseResult) : Except PyExc OmqQueue :=
  match (Except.bind r OmqQueue.from_xml_inner : Except PyExc OmqQueue) with
  | .ok q => .ok q
  | .error e => .error (.omqException e.pyRepr)

/-- `OmqServerException.__init__(xml)`: parses the body, collects the
`error`-named elements, and takes `error_tags.pop().firstChild.data` —
the last element's first child's text — as the message when at least one
exists, the fixed fallback string otherwise.  `.data` on an absent or
non-text first child raises `AttributeError`. -/
def OmqServerException.parse (body : ParseResult) : Except PyExc String := do
  let doc ← body
  let error_tags := doc.getElementsByTagName "error"
  match error_tags.getLast? with
  | some tag =>
      match tag.firstChild with
      | some (.text d) => return d
      | some (.element _ _ _) =>
          throw (.attributeError "Element instance has no attribute data")
      | none =>
          throw (.attributeError "NoneType object has no attribute data")
  | none => return "Unknown server error"

/-- `OmqConnection.HTTPS_ADDR`. -/
def OmqConnection.HTTPS_ADDR : String := "mq.onlinemq.com"

/-- `OmqConnection.URL_POSTFIX`. -/
def OmqConnection.URL_POSTFIX : String := ".xml"

/-- `OmqConnection._append_postfix(path)`. -/
def OmqConnection.append_postfix (path : String) : String :=
  path ++ OmqConnection.URL_POSTFIX

/-- Python truthiness of an optional int argument (`if transaction_id:`):
falsy when absent or zero. -/
def pyTruthyInt : Option Int → Bool
  | none => false
  | some n => n != 0

/-- The request path built by `OmqConnection.receive_message(queue_id,
transaction_id)`: the `.xml`-postfixed path is computed and then
immediately overwritten by the bare base path, after which the
`transaction_id` query parameter is appended when the argument is truthy. -/
def OmqConnection.receive_message_path (queue_id : Int)
    (transaction_id : Option Int) : String :=
  let base_path := "/queues/" ++ toString queue_id ++ "/messages/receive"
  let path := OmqConnection.append_postfix base_path
  let path := base_path
  if pyTruthyInt transaction_id then
    path ++ "?transaction_id=" ++ toString (transaction_id.getD 0)
  else
    path

/-- Characters of a list stripped from both ends, the Python
`str.strip(chars)` semantics: `chars` is a character *set*. -/
def stripChars (cs : List Char) (set : List Char) : List Char :=
  ((cs.dropWhile set.contains).reverse.dropWhile set.contains).reverse

/-- Python `location.strip(full_url)`: strips from both ends of `location`
every character that occurs anywhere in `full_url`. -/
def pyStrip (s chars : String) : String :=
  ⟨stripChars s.toList chars.toList⟩

/-- The response of one HTTPS exchange, as far as `open_transaction`
observes it: the status code, the optional `location` header, and the body
(by its parse outcome, for the error path). -/
structure HttpResponse where
  status : Nat
  location : Option String
  body : ParseResult

/-- `OmqConnection.open_transaction`, from the response on: on status < 400
reads the `location` header; when present, strips the characters of
`'https://%s/%s/' % (HTTPS_ADDR, '/transactions')` (note the double slash)
from both ends of it and passes the remainder to `int()`; when absent,
returns `None`.  On status >= 400, `_handle_error` raises the
`OmqServerException` parsed from the body. -/
def OmqConnection.open_transaction (resp : HttpResponse) :
    Except PyExc (Option Int) :=
  if resp.status < 400 then
    match resp.location with
    | some location =>
        let base_path := "/transactions"
        let full_url := "https://" ++ OmqConnection.HTTPS_ADDR ++ "/" ++ base_path ++ "/"
        let stripped := pyStrip location full_url
        match pyInt? stripped with
        | some n => .ok (some n)
        | none =>
            .error (.valueError
              ("invalid literal for int() with base 10: " ++ stripped))
    | none => .ok none
  else
    match OmqServerException.parse resp.body with
    | .ok msg => .error (.omqServerException msg)
    | .error e => .error e

/-! ## Theorems settling the claims -/

/-- C5: for every input (represented by its parse outcome),
`OmqMessage.from_xml` never propagates an exception: whenever the parse or
any step of the body raises, the result is `none`, and when the body
succeeds the constructed message is returned. -/
theorem c5_message_from_xml_swallows_exceptions (r : ParseResult) :
    (∀ e : PyExc, Except.bind r OmqMessage.from_xml_inner = .error e →
      OmqMessage.from_xml r = none)
    ∧ (∀ m : OmqMessage, Except.bind r OmqMessage.from_xml_inner = .ok m →
      OmqMessage.from_xml r = some m) := by
  constructor
  · intro e h
    simp [OmqMessage.from_xml, h]
  · intro m h
    simp [OmqMessage.from_xml, h]

/-- Witness for C5: a malformed body (a raised parse exception) yields
`none`. -/
theorem c5_witness :
    OmqMessage.from_xml (Except.error (PyExc.expatError "junk")) = none :=
  (c5_message_from_xml_swallows_exceptions
      (Except.error (PyExc.expatError "junk"))).1 (PyExc.expatError "junk") rfl

/-- C6: for every input on which parsing (or field reading) fails,
`OmqQueue.from_xml` raises the library error `OmqException` carrying the
`repr` of the underlying exception, instead of returning an absent
result. -/
theorem c6_queue_from_xml_raises_omq_exception (r : ParseResult) (e : PyExc)
    (h : Except.bind r OmqQueue.from_xml_inner = .error e) :
    OmqQueue.from_xml r = .error (.omqException e.pyRepr) := by
  simp [OmqQueue.from_xml, h]

/-- Witness for C6: a raised parse exception is converted into
`OmqException` carrying its description. -/
theorem c6_witness :
    OmqQueue.from_xml (Except.error (PyExc.expatError "syntax error: line 1"))
      = .error (.omqException "ExpatError(syntax error: line 1)") :=
  c6_queue_from_xml_raises_omq_exception
    (Except.error (PyExc.expatError "syntax error: line 1"))
    (PyExc.expatError "syntax error: line 1") rfl

/-- C8: on a well-formed error body, the server-error message is the text of
the last `error` element when at least one exists, and the fixed fallback
string when none does. -/
theorem c8_server_error_last_or_fallback (doc : XmlDoc) (tag : XmlNode)
    (d : String) :
    ((doc.getElementsByTagName "error").getLast? = some tag →
      tag.firstChild = some (.text d) →
      OmqServerException.parse (Except.ok doc) = .ok d)
    ∧ (doc.getElementsByTagName "error" = [] →
      OmqServerException.parse (Except.ok doc) = .ok "Unknown server error") := by
  constructor
  · intro hlast htext
    simp only [OmqServerException.parse, bind, Except.bind, hlast, htext, pure,
      Except.pure]
  · intro hnone
    simp only [OmqServerException.parse, bind, Except.bind, hnone,
      List.getLast?_nil, pure, Except.pure]

/-- A body with two `error` elements, the last carrying text. -/
def errorBodyTwo : XmlDoc :=
  ⟨.element "errors" []
    [.element "error" [] [.text "first"], .element "error" [] [.text "quota exceeded"]]⟩

/-- A body with no `error` element. -/
def errorBodyNone : XmlDoc := ⟨.element "errors" [] []⟩

/-- Witness for C8: two `error` elements give the last one's text; zero give
the fallback. -/
theorem c8_witness :
    OmqServerException.parse (Except.ok errorBodyTwo) = .ok "quota exceeded"
    ∧ OmqServerException.parse (Except.ok errorBodyNone)
      = .ok "Unknown server error" :=
  ⟨(c8_server_error_last_or_fallback errorBodyTwo
      (.element "error" [] [.text "quota exceeded"]) "quota exceeded").1 rfl rfl,
   (c8_server_error_last_or_fallback errorBodyNone
      (.text "") "").2 rfl⟩

/-- C10: when the last `error` element is empty (childless), constructing
the server-error condition raises a raw `AttributeError` (from `.data` on
`None`), which is neither a library error nor the fallback message. -/
theorem c10_empty_error_element_attribute_error (doc : XmlDoc)
    (name : String) (attrs : List (String × String))
    (h : (doc.getElementsByTagName "error").getLast?
      = some (.element name attrs [])) :
    OmqServerException.parse (Except.ok doc)
      = .error (.attributeError "NoneType object has no attribute data")
    ∧ (PyExc.attributeError "NoneType object has no attribute data").isLibraryError
      = false := by
  constructor
  · simp only [OmqServerException.parse, bind, Except.bind, h, XmlNode.firstChild,
      List.head?_nil, throw, throwThe, MonadExceptOf.throw]
  · rfl

/-- A body whose last `error` element has no text child. -/
def errorBodyEmptyLast : XmlDoc :=
  ⟨.element "errors" []
    [.element "error" [] [.text "first"], .element "error" [] []]⟩

/-- Witness for C10: an empty last `error` element crashes message
extraction with `AttributeError`. -/
theorem c10_witness :
    OmqServerException.parse (Except.ok errorBodyEmptyLast)
      = .error (.attributeError "NoneType object has no attribute data") :=
  (c10_empty_error_element_attribute_error errorBodyEmptyLast "error" [] rfl).1

/-- A document whose only `f` element is typed `integer` with non-numeric
text. -/
def badIntegerDoc : XmlDoc :=
  ⟨.element "r" [] [.element "f" [("type", "integer")] [.text "abc"]]⟩

/-- Counterexample to C4: on an integer-typed field with non-numeric text,
`get_tag_content` raises a raw `ValueError` — a language-level exception
outside the library error taxonomy; the library defines no
`MalformedResponse` error at all. -/
theorem c4_counterexample :
    XmlHelper.get_tag_content badIntegerDoc "f"
      = .error (.valueError "invalid literal for int() with base 10: abc")
    ∧ (PyExc.valueError "invalid literal for int() with base 10: abc").isLibraryError
      = false :=
  ⟨rfl, rfl⟩

/-- C4 (amended): on a document whose last element of the requested tag is
typed `integer` with non-empty text that is not a valid integer numeral,
`get_tag_content` raises a raw `ValueError` naming the offending text. -/
theorem c4_integer_parse_raises_valueerror (doc : XmlDoc)
    (tagName name : String) (attrs : List (String × String))
    (cs : List XmlNode) (data : String) (u : Bool)
    (hlast : (doc.getElementsByTagName tagName).getLast?
      = some (.element name attrs (XmlNode.text data :: cs)))
    (hlen : data.length > 0)
    (hattr : attrs.lookup "type" = some "integer")
    (hint : pyInt? data = none) :
    XmlHelper.get_tag_content doc tagName u
      = .error (.valueError ("invalid literal for int() with base 10: " ++ data)) := by
  simp only [XmlHelper.get_tag_content, hlast, XmlNode.firstChild, List.head?_cons,
    XmlNode.getAttributeOpt, hattr, hlen, hint, if_pos]

/-- Witness for C4: the amended claim evaluated on `badIntegerDoc`. -/
theorem c4_witness :
    XmlHelper.get_tag_content badIntegerDoc "f" true
      = .error (.valueError ("invalid literal for int() with base 10: " ++ "abc")) :=
  c4_integer_parse_raises_valueerror badIntegerDoc "f" "f" [("type", "integer")]
    [] "abc" true rfl (by decide) rfl rfl

/-- C7: `get_tag_content` returns absent when no element of the tag name
exists; it is determined by the last matching element alone; it returns
absent when that element has no first child or its text has zero length;
otherwise it returns the value typed by the `type` attribute (string —
unescaped when enabled — by default, `str_as_bool` for `boolean`, the
parsed integer for `integer`). -/
theorem c7_get_tag_content_characterisation (doc : XmlDoc) (t : String)
    (u : Bool) :
    (doc.getElementsByTagName t = [] →
      XmlHelper.get_tag_content doc t u = .ok none)
    ∧ (∀ doc2 : XmlDoc,
        (doc2.getElementsByTagName t).getLast?
          = (doc.getElementsByTagName t).getLast? →
        XmlHelper.get_tag_content doc2 t u = XmlHelper.get_tag_content doc t u)
    ∧ (∀ name attrs,
        (doc.getElementsByTagName t).getLast? = some (.element name attrs []) →
        XmlHelper.get_tag_content doc t u = .ok none)
    ∧ (∀ name attrs cs,
        (doc.getElementsByTagName t).getLast?
          = some (.element name attrs (XmlNode.text "" :: cs)) →
        XmlHelper.get_tag_content doc t u = .ok none)
    ∧ (∀ name attrs cs d,
        (doc.getElementsByTagName t).getLast?
          = some (.element name attrs (XmlNode.text d :: cs)) →
        d.length > 0 →
        (attrs.lookup "type" = none →
          XmlHelper.get_tag_content doc t u
            = .ok (some (.str (if u then sax_unescape d else d))))
        ∧ (attrs.lookup "type" = some "boolean" →
          XmlHelper.get_tag_content doc t u
            = .ok (some (.int (XmlHelper.str_as_bool d))))
        ∧ (∀ n : Int, attrs.lookup "type" = some "integer" → pyInt? d = some n →
          XmlHelper.get_tag_content doc t u = .ok (some (.int n)))) := by
  refine ⟨?_, ?_, ?_, ?_, ?_⟩
  · intro h
    simp only [XmlHelper.get_tag_content, h, List.getLast?_nil]
  · intro doc2 h
    simp only [XmlHelper.get_tag_content, h]
  · intro name attrs h
    simp only [XmlHelper.get_tag_content, h, XmlNode.firstChild, List.head?_nil]
  · intro name attrs cs h
    simp only [XmlHelper.get_tag_content, h, XmlNode.firstChild, List.head?_cons]
    simp
  · intro name attrs cs d h hlen
    refine ⟨?_, ?_, ?_⟩
    · intro hattr
      simp only [XmlHelper.get_tag_content, h, XmlNode.firstChild, List.head?_cons,
        XmlNode.getAttributeOpt, hattr, hlen, if_pos]
    · intro hattr
      simp only [XmlHelper.get_tag_content, h, XmlNode.firstChild, List.head?_cons,
        XmlNode.getAttributeOpt, hattr, hlen, if_pos]
    · intro n hattr hn
      simp only [XmlHelper.get_tag_content, h, XmlNode.firstChild, List.head?_cons,
        XmlNode.getAttributeOpt, hattr, hlen, hn, if_pos]

/-- A document with two `f` elements, the untyped last one carrying an
escaped entity. -/
def duplicateTagDoc : XmlDoc :=
  ⟨.element "r" []
    [.element "f" [] [.text "one"], .element "f" [] [.text "two&amp;x"]]⟩

/-- Witness for C7: the last of two duplicate tags wins and its text is
unescaped. -/
theorem c7_witness :
    XmlHelper.get_tag_content duplicateTagDoc "f" true
      = .ok (some (.str "two&x")) := by
  have h := ((c7_get_tag_content_characterisation duplicateTagDoc "f" true).2.2.2.2
    "f" [] [] "two&amp;x" rfl (by decide)).1 rfl
  have hu : (if true = true then sax_unescape "two&amp;x" else "two&amp;x")
      = "two&x" := by decide
  rw [h, hu]

/-- An untyped leaf element holding a string — or nothing, for an absent
value: the shape every child of the serialised message root takes. -/
def plainTag (tagName : String) : Option String → List XmlNode
  | none => []
  | some s => [XmlNode.element tagName [] [XmlNode.text s]]

/-- A representative client-constructed message. -/
def exampleMessage : OmqMessage :=
  { body := some (.str "hello"), encoding := .int OmqMessage.ENC_UTF8,
    priority := some (.int 5), body_type := some (.int 3),
    description := some (.str "dsc"), sender := none, queue_id := none,
    id := none }

/-- Counterexample to C2: the serialised `body_encoding_id` element carries
no attribute at all — in particular no `type="integer"` — contradicting the
claimed integer typing. -/
theorem c2_counterexample :
    (OmqMessage.get_message_as_xml_doc exampleMessage).root.firstChild
      = some (XmlNode.element "body_encoding_id" [] [XmlNode.text "1"])
    ∧ (XmlNode.element "body_encoding_id" [] [XmlNode.text "1"]).getAttributeOpt
        "type" ≠ some "integer" := by
  refine ⟨rfl, ?_⟩
  intro h
  simp [XmlNode.getAttributeOpt] at h

/-- C2 (amended): the serialised document has root `message` with children
in order `body_encoding_id` (untyped — no `type` attribute, carrying the
string form of the encoding value), `priority`, `body_type_id`,
`description` and `body` (escaped exactly for the UTF-8 and XML-escaped
encodings); an absent field contributes no element. -/
theorem c2_message_xml_structure (m : OmqMessage) :
    m.get_message_as_xml_doc =
      ⟨XmlNode.element "message" []
        (plainTag "body_encoding_id" (some (sax_escape m.encoding.pyStr))
         ++ plainTag "priority" (m.priority.map fun v => sax_escape v.pyStr)
         ++ plainTag "body_type_id" (m.body_type.map fun v => sax_escape v.pyStr)
         ++ plainTag "description" (m.description.map fun v => sax_escape v.pyStr)
         ++ plainTag "body" (m.body.map fun v =>
              if pyEqInt (some m.encoding) OmqMessage.ENC_UTF8
                  || pyEqInt (some m.encoding) OmqMessage.ENC_XML_ESCAPED then
                sax_escape v.pyStr
              else v.pyStr))⟩ := by
  cases hp : m.priority <;> cases hb : m.body_type <;> cases hd : m.description <;>
    cases hbo : m.body <;>
      simp only [OmqMessage.get_message_as_xml_doc, XmlHelper.add_tag_with_value,
        plainTag, hp, hb, hd, hbo, Option.map_none, Option.map_some,
        List.nil_append, List.append_nil, List.append_assoc, List.cons_append,
        List.singleton_append] <;>
      split <;> simp

/-- A message with a body full of XML metacharacters, UTF-8 encoded. -/
def metaBodyUtf8 : OmqMessage :=
  { exampleMessage with body := some (.str "a<b&c\"d") }

/-- The same body, XML-escaped encoding. -/
def metaBodyXmlEscaped : OmqMessage :=
  { metaBodyUtf8 with encoding := .int OmqMessage.ENC_XML_ESCAPED }

/-- The same body, CDATA encoding. -/
def metaBodyCdata : OmqMessage :=
  { metaBodyUtf8 with encoding := .int OmqMessage.ENC_CDATA }

/-- The same body, Base64 encoding. -/
def metaBodyBase64 : OmqMessage :=
  { metaBodyUtf8 with encoding := .int OmqMessage.ENC_BASE64 }

/-- C1 fails on the code: for each of the four encodings, deserialising the
serialised message yields `none`, not a message carrying the original body.
The serialiser writes `body_encoding_id` untyped, so deserialisation reads
it back as a string; the string never equals the int enum constant, and the
fallback comparison reads `self.encoding` inside a function with no `self`
in scope, raising a `NameError` that the bare `except` turns into `None`. -/
theorem c1_roundtrip_yields_none :
    OmqMessage.from_xml (Except.ok metaBodyUtf8.get_message_as_xml_doc) = none
    ∧ OmqMessage.from_xml
        (Except.ok metaBodyXmlEscaped.get_message_as_xml_doc) = none
    ∧ OmqMessage.from_xml (Except.ok metaBodyCdata.get_message_as_xml_doc) = none
    ∧ OmqMessage.from_xml
        (Except.ok metaBodyBase64.get_message_as_xml_doc) = none :=
  ⟨rfl, rfl, rfl, rfl⟩

/-- Counterexample to C3: with queue 5 and no transaction, the request path
lacks the `.xml` postfix the claim asserts; and a supplied transaction ID of
0 is falsy, so it appends no query parameter either. -/
theorem c3_counterexample :
    OmqConnection.receive_message_path 5 none = "/queues/5/messages/receive"
    ∧ OmqConnection.receive_message_path 5 none
      ≠ "/queues/5/messages/receive.xml"
    ∧ OmqConnection.receive_message_path 5 (some 0)
      = "/queues/5/messages/receive" := by
  refine ⟨rfl, ?_, rfl⟩
  decide

/-- C3 (amended): the receive path is `/queues/{queueId}/messages/receive`
with no postfix — the `.xml`-postfixed path is computed and immediately
overwritten — followed by `?transaction_id={t}` exactly when a transaction
ID `t ≠ 0` is supplied (zero is falsy and appends nothing). -/
theorem c3_receive_message_path (queue_id : Int) (transaction_id : Option Int) :
    OmqConnection.receive_message_path queue_id transaction_id =
      "/queues/" ++ toString queue_id ++ "/messages/receive"
        ++ (match transaction_id with
            | some t => if t ≠ 0 then "?transaction_id=" ++ toString t else ""
            | none => "") := by
  cases transaction_id with
  | none =>
      simp [OmqConnection.receive_message_path, pyTruthyInt]
  | some t =>
      by_cases h : t = 0 <;>
        simp [OmqConnection.receive_message_path, pyTruthyInt, h,
          String.append_assoc] <;>
        rfl

/-- Dropping while a predicate holds skips a prefix on which it always
holds. -/
theorem dropWhile_append_of_forall {p : Char → Bool} (l₁ l₂ : List Char)
    (h : ∀ a ∈ l₁, p a = true) :
    (l₁ ++ l₂).dropWhile p = l₂.dropWhile p := by
  induction l₁ with
  | nil => simp
  | cons a l ih =>
      rw [List.cons_append, List.dropWhile_cons, h a (List.mem_cons_self a l)]
      simp only [if_true]
      exact ih fun x hx => h x (List.mem_cons_of_mem a hx)

/-- Dropping while a predicate holds is the identity on a list where it
never holds. -/
theorem dropWhile_eq_self_of_forall {p : Char → Bool} (l : List Char)
    (h : ∀ a ∈ l, p a = false) : l.dropWhile p = l := by
  cases l with
  | nil => rfl
  | cons a t =>
      rw [List.dropWhile_cons, h a (List.mem_cons_self a t)]
      simp

/-- Stripping the characters of `set` from both ends of
`pre ++ mid ++ "/"` leaves exactly `mid`, when every character of `pre` and
the slash are in the set and no character of `mid` is. -/
theorem stripChars_wrapped (set pre mid : List Char)
    (hpre : ∀ c ∈ pre, set.contains c = true)
    (hmid : ∀ c ∈ mid, set.contains c = false)
    (hmid0 : mid ≠ [])
    (hslash : set.contains '/' = true) :
    stripChars (pre ++ (mid ++ ['/'])) set = mid := by
  obtain ⟨d, rest, rfl⟩ := List.exists_cons_of_ne_nil hmid0
  unfold stripChars
  rw [dropWhile_append_of_forall pre _ hpre]
  have h1 : ((d :: rest) ++ ['/']).dropWhile set.contains = (d :: rest) ++ ['/'] := by
    rw [List.cons_append, List.dropWhile_cons, hmid d (List.mem_cons_self d rest)]
    simp
  rw [h1]
  have h2 : ((d :: rest) ++ ['/']).reverse = '/' :: (d :: rest).reverse := by
    rw [List.reverse_append]
    rfl
  rw [h2, List.dropWhile_cons, hslash]
  simp only [if_true]
  rw [dropWhile_eq_self_of_forall _ (fun c hc => hmid c (List.mem_reverse.mp hc)),
    List.reverse_reverse]

/-- No character of the stripped URL is a decimal digit, and the slash is
among them. -/
theorem strip_set_facts :
    (∀ c ∈ ("https://mq.onlinemq.com//transactions/").toList, c.isDigit = false)
    ∧ ("https://mq.onlinemq.com//transactions/").toList.contains '/' = true := by
  decide

/-- A digit is not contained in a character list free of digits. -/
theorem contains_false_of_isDigit (set : List Char)
    (hset : ∀ c ∈ set, c.isDigit = false) (c : Char) (hc : c.isDigit = true) :
    set.contains c = false := by
  cases h : set.contains c
  · rfl
  · have hmem : c ∈ set := List.mem_of_elem_eq_true h
    rw [hset c hmem] at hc
    exact absurd hc (by simp)

/-- C9: on a sub-400 status, `open_transaction` extracts the numeric
trailing path segment of the `location` header — both for a path-only and
for a full-URL header — and returns `None` when the header is absent.
`ds` is the decimal numeral of the transaction ID and `m` its value. -/
theorem c9_open_transaction_location (resp : HttpResponse) (ds : String)
    (m : Int)
    (hstatus : resp.status < 400)
    (hds0 : ds.toList ≠ [])
    (hdig : ∀ c ∈ ds.toList, c.isDigit = true)
    (hval : pyInt? ds = some m) :
    (resp.location = some ("/transactions/" ++ ds ++ "/") →
      OmqConnection.open_transaction resp = .ok (some m))
    ∧ (resp.location
        = some ("https://mq.onlinemq.com/transactions/" ++ ds ++ "/") →
      OmqConnection.open_transaction resp = .ok (some m))
    ∧ (resp.location = none →
      OmqConnection.open_transaction resp = .ok none) := by
  have hmid : ∀ c ∈ ds.toList,
      ("https://mq.onlinemq.com//transactions/").toList.contains c = false :=
    fun c hc => contains_false_of_isDigit _ strip_set_facts.1 c (hdig c hc)
  have hstrip1 : pyStrip ("/transactions/" ++ ds ++ "/")
      "https://mq.onlinemq.com//transactions/" = ds := by
    unfold pyStrip
    have hlist : ("/transactions/" ++ ds ++ "/").toList
        = ("/transactions/").toList ++ (ds.toList ++ ['/']) := by
      show ("/transactions/" ++ ds ++ "/").data
          = ("/transactions/").data ++ (ds.data ++ ['/'])
      rw [String.data_append, String.data_append, List.append_assoc]
    rw [hlist, stripChars_wrapped _ _ _ (by decide) hmid hds0 strip_set_facts.2]
    cases ds
    rfl
  have hstrip2 : pyStrip ("https://mq.onlinemq.com/transactions/" ++ ds ++ "/")
      "https://mq.onlinemq.com//transactions/" = ds := by
    unfold pyStrip
    have hlist : ("https://mq.onlinemq.com/transactions/" ++ ds ++ "/").toList
        = ("https://mq.onlinemq.com/transactions/").toList ++ (ds.toList ++ ['/']) := by
      show ("https://mq.onlinemq.com/transactions/" ++ ds ++ "/").data
          = ("https://mq.onlinemq.com/transactions/").data ++ (ds.data ++ ['/'])
      rw [String.data_append, String.data_append, List.append_assoc]
    rw [hlist, stripChars_wrapped _ _ _ (by decide) hmid hds0 strip_set_facts.2]
    cases ds
    rfl
  have hurl : ("https://" ++ OmqConnection.HTTPS_ADDR ++ "/" ++ "/transactions" ++ "/")
      = "https://mq.onlinemq.com//transactions/" := rfl
  refine ⟨?_, ?_, ?_⟩
  · intro hloc
    simp only [OmqConnection.open_transaction, if_pos hstatus, hloc, hurl,
      hstrip1, hval]
  · intro hloc
    simp only [OmqConnection.open_transaction, if_pos hstatus, hloc, hurl,
      hstrip2, hval]
  · intro hloc
    simp only [OmqConnection.open_transaction, if_pos hstatus, hloc]

/-- The mock response of the end-to-end test: status 201 with header
`location: /transactions/42/`. -/
def mockResponse201 : HttpResponse :=
  ⟨201, some "/transactions/42/", Except.ok ⟨XmlNode.text ""⟩⟩

/-- Witness for C9: the mock exchange yields transaction ID 42. -/
theorem c9_witness :
    OmqConnection.open_transaction mockResponse201 = .ok (some 42) :=
  (c9_open_transaction_location mockResponse201 "42" 42 (by decide) (by decide)
    (by decide) (by decide)).1 rfl
